import Mathlib

/-!
Verification of the driver abstraction layer of thinkfan (src/src/drivers.cpp).

The C++ code is shallowly embedded: each driver's mutable members become a
Lean structure, each member function becomes a pure Lean function, and the
outcome of each raw file write (which depends on the kernel) is an explicit
`WriteRes` parameter.  Thrown exceptions become `Except`/`Option Err` values.
The sequence of write attempts a call issues is returned as a `List Act`
trace so that "exactly one write" style properties can be stated.
-/

namespace Thinkfan

/-- OS error code EPERM from cerrno (permission denied). -/
def EPERM : Nat := 1

/-- OS error code EINVAL from cerrno (invalid argument). -/
def EINVAL : Nat := 22

/-- Exception kinds thrown by drivers.cpp (declared in error.h): IOerror
carries the errno code, SystemError and ConfigError carry only a message. -/
inductive Err where
  | IOerror (msg : String) (code : Nat)
  | SystemError (msg : String)
  | ConfigError (msg : String)
deriving DecidableEq, Repr

/-- Tests whether an error is an IOerror (used to state classification facts). -/
def Err.isIOerr : Err → Bool
  | .IOerror _ _ => true
  | _ => false

/-- Outcome of one raw write to a kernel control file: success, or failure
with the resulting errno value.  This is the environment's input to the model. -/
inductive WriteRes where
  | ok
  | fail (err : Nat)
deriving DecidableEq, Repr

/-- One observable side effect: a write attempt of `data` to file `path`. -/
inductive Act where
  | put (path : String) (data : String)
deriving DecidableEq, Repr

/-- Modelled from the spec: the Level value object is declared in config.h,
which is not under src/.  It carries a text form for text-protocol fans and
a numeric form for PWM fans. -/
structure Level where
  str : String
  num : Int
deriving DecidableEq, Repr

/-- Modelled from the spec: message.h is not under src/.  The spec requires
the permission-denied message to name the control path. -/
def MSG_FAN_EPERM (path : String) : String :=
  "No permission to write to " ++ path

/-- Modelled from the spec: message text for a failed fan-control write. -/
def MSG_FAN_CTRL (level path : String) : String :=
  "Writing " ++ level ++ " to " ++ path ++ " failed"

/-- Modelled from the spec: message text for a failed driver initialization. -/
def MSG_FAN_INIT (path : String) : String :=
  "Initializing fan control in " ++ path ++ " failed"

/-- Modelled from the spec: message text for a failed hardware-state restore. -/
def MSG_FAN_RESET (path : String) : String :=
  "Resetting fan control in " ++ path ++ " failed"

/-- Modelled from the spec: message for a missing `level <level>` command
(fan control unsupported by the kernel build). -/
def MSG_FAN_MODOPTS : String :=
  "fan_control module option required for fan control"

/-- Modelled from the spec: message for a correction vector whose length
does not match the sensor's channel count. -/
def MSG_CONF_CORRECTION_LEN (path : String) (clen ntemps : Nat) : String :=
  "Correction vector of length " ++ toString clen ++ " for " ++ path
    ++ " with " ++ toString ntemps ++ " channels"

/-- Modelled from the spec: message text for a failed sensor initialization. -/
def MSG_SENSOR_INIT (path : String) : String :=
  "Initializing sensor " ++ path ++ " failed"

/-- Modelled from the spec: message text for a failed temperature read. -/
def MSG_T_GET (path : String) : String :=
  "Reading temperature from " ++ path ++ " failed"

/-- Checks whether `pat` is a leading segment of `l` (character lists). -/
def leadsWith : List Char → List Char → Bool
  | [], _ => true
  | _ :: _, [] => false
  | p :: ps, c :: cs => p == c && leadsWith ps cs

/-- Checks whether `pat` occurs contiguously anywhere in `l`; this is the
model of std::string rfind(pat) != npos, which searches the whole string. -/
def hasSub (pat : List Char) : List Char → Bool
  | [] => leadsWith pat []
  | c :: cs => leadsWith pat (c :: cs) || hasSub pat cs

/-- Substring test on strings, via `hasSub` on their character data. -/
def hasSubStr (pat s : String) : Bool :=
  hasSub pat.data s.data

/-- FanDriver::set_speed (drivers.cpp lines 51-64): one write attempt of the
level text to the control path; a failure with errno EPERM becomes a
SystemError naming the path, any other failure an IOerror carrying errno. -/
def FanDriver.set_speed (path level : String) (w : WriteRes) : Except Err Unit :=
  match w with
  | .ok => .ok ()
  | .fail err =>
    if err = EPERM then .error (Err.SystemError (MSG_FAN_EPERM path))
    else .error (Err.IOerror (MSG_FAN_CTRL level path) err)

/-- Trace-producing form of FanDriver::set_speed: the write attempt happens
exactly once whether or not it succeeds. -/
def FanDriver.set_speedT (path level : String) (w : WriteRes) : List Act × Option Err :=
  ([Act.put path level],
   match FanDriver.set_speed path level w with
   | .ok _ => none
   | .error e => some e)

/-- State of a TpFanDriver (drivers.cpp lines 73-149): the control path, the
watchdog timeout in seconds (FanDriver member, duration of unsigned int),
the depulse duration in seconds (duration of float, modelled as a rational),
the time of the last successful speed write, and the level string observed
at construction, to be restored by the destructor. -/
structure TpFanState where
  path : String
  watchdog : Nat
  depulse : ℚ
  lastPing : Int
  initialState : String
deriving DecidableEq, Repr

/-- TpFanDriver::set_watchdog (drivers.cpp line 113-114). -/
def TpFanDriver.set_watchdog (s : TpFanState) (timeout : Nat) : TpFanState :=
  { s with watchdog := timeout }

/-- TpFanDriver::set_depulse (drivers.cpp line 117-118). -/
def TpFanDriver.set_depulse (s : TpFanState) (duration : ℚ) : TpFanState :=
  { s with depulse := duration }

/-- TpFanDriver::set_speed (drivers.cpp lines 121-125): delegate to the base
write with the level's text; only on success record `now` as the time of the
last successful write (an exception skips the assignment). -/
def TpFanDriver.set_speed (s : TpFanState) (lvl : Level) (now : Int) (w : WriteRes) :
    TpFanState × List Act × Option Err :=
  match FanDriver.set_speed s.path lvl.str w with
  | .ok _ => ({ s with lastPing := now }, [Act.put s.path lvl.str], none)
  | .error e => (s, [Act.put s.path lvl.str], some e)

/-- TpFanDriver::ping_watchdog_and_depulse (drivers.cpp lines 128-137).
Returns the write attempts issued this cycle and whether the call blocked
for the depulse duration.  `slp` is the polling period `sleeptime`
(modelled from the spec: sleeptime is a global defined outside src/). -/
def TpFanDriver.ping_watchdog_and_depulse (s : TpFanState) (lvl : Level)
    (now : Int) (slp : Nat) : List Act × Bool :=
  if 0 < s.depulse then
    ([Act.put s.path ("level disengaged"), Act.put s.path lvl.str], true)
  else if s.lastPing + s.watchdog + slp ≥ now then
    ([Act.put s.path lvl.str], false)
  else ([], false)

/-- TpFanDriver::init (drivers.cpp lines 140-149): write the watchdog timeout
to the control path; a failure is an IOerror. -/
def TpFanDriver.init (s : TpFanState) (w : WriteRes) : List Act × Option Err :=
  ([Act.put s.path ("watchdog " ++ toString s.watchdog)],
   match w with
   | .ok => none
   | .fail err => some (Err.IOerror (MSG_FAN_INIT s.path) err))

/-- TpFanDriver::~TpFanDriver (drivers.cpp lines 101-110): unconditionally
write `level ` followed by the remembered initial state back to the control
path; a failure becomes an IOerror (it is surfaced, not swallowed). -/
def TpFanDriver.dtor (s : TpFanState) (w : WriteRes) : List Act × Option Err :=
  ([Act.put s.path ("level " ++ s.initialState)],
   match w with
   | .ok => none
   | .fail err => some (Err.IOerror (MSG_FAN_RESET s.path) err))

/-- The NUL character: getline stores it after the characters it extracts. -/
def nulChar : Char := Char.ofNat 0

/-- Token `level:` looked for by the TpFanDriver constructor (line 85). -/
def levelColonTok : List Char := "level:".data

/-- Token `commands:` looked for by the TpFanDriver constructor (line 89). -/
def commandsTok : List Char := "commands:".data

/-- Token `level <level>` looked for by the TpFanDriver constructor (line 89). -/
def levelTok : List Char := "level <level>".data

/-- The scan buffer as first resized: 256 NUL characters (line 81). -/
def bufInit : List Char := List.replicate 256 nulChar

/-- One getline into the reused 256-character buffer (line 84): the new
line's characters overwrite the front, a NUL terminator follows, and the
rest of the buffer keeps whatever it held before.  `tpScan` applies this
only to lines of at most 253 characters: getline(.., 255) sets failbit as
soon as 254 characters are stored, and a failed getline ends the scan loop
before the line is examined (see `tpScan`). -/
def scanStep (buf l : List Char) : List Char :=
  l ++ nulChar :: buf.drop (l.length + 1)

/-- Index of the last space or tab in a character list, as in
std::string::find_last_of(" \t") over the whole 256-character buffer. -/
def lastWsIdx : List Char → Option Nat
  | [] => none
  | c :: cs =>
    match lastWsIdx cs with
    | some i => some (i + 1)
    | none => if c == ' ' || c == '\t' then some 0 else none

/-- Everything after the last space or tab of the buffer (line 87):
substr(find_last_of(" \t") + 1); if there is none, npos + 1 wraps to 0 and
the whole buffer is taken. -/
def afterLastWs (buf : List Char) : List Char :=
  match lastWsIdx buf with
  | some i => buf.drop (i + 1)
  | none => buf

/-- The status-line scan of the TpFanDriver constructor (lines 84-92),
threading the reused buffer.  A line of 254 or more characters makes
`f.getline(&*line.begin(), 255)` store 254 characters and set failbit (not
an exception: the mask is badbit-only at that point), so the while loop
ends without examining that line or any later one, leaving the flags as
they were.  For a processed line, a buffer containing `level:` updates the
remembered initial state, otherwise a buffer containing both `commands:`
and `level <level>` marks control as supported. -/
def tpScan : List (List Char) → List Char → List Char → Bool → List Char × Bool
  | [], _, st, ctrl => (st, ctrl)
  | l :: ls, buf, st, ctrl =>
    if 254 ≤ l.length then (st, ctrl)
    else
      let buf' := scanStep buf l
      if hasSub levelColonTok buf' then tpScan ls buf' (afterLastWs buf') ctrl
      else if hasSub commandsTok buf' && hasSub levelTok buf' then tpScan ls buf' st true
      else tpScan ls buf' st ctrl

/-- TpFanDriver::TpFanDriver (drivers.cpp lines 73-98), given the lines of
the fan status file: scan lines until the end or the first line of 254 or
more characters (where getline fails and the loop stops); if no scan state
showed control support, construction fails with a SystemError, else the
driver starts Ready with the default watchdog timeout of 120 seconds, no
depulsing, and the remembered initial state. -/
def TpFanDriver.ctor (path : String) (lines : List (List Char)) :
    Except Err TpFanState :=
  match tpScan lines bufInit [] false with
  | (st, true) =>
    .ok { path := path, watchdog := 120, depulse := 0, lastPing := 0,
          initialState := String.mk st }
  | (_, false) => .error (Err.SystemError MSG_FAN_MODOPTS)

/-- State of a HwmonFanDriver (drivers.cpp lines 156-169): the PWM control
path, the watchdog timeout inherited from FanDriver (constructed as 0), and
the original contents of the sibling `_enable` file. -/
structure HwmonFanState where
  path : String
  watchdog : Nat
  initialState : String
deriving DecidableEq, Repr

/-- HwmonFanDriver::HwmonFanDriver (drivers.cpp lines 156-169): remember the
first line of the `_enable` file, read through a 64-character buffer (at
most 62 characters of the first line, the rest of the fresh buffer staying
NUL), with the FanDriver base constructed with watchdog timeout 0. -/
def HwmonFanDriver.ctor (path : String) (enableContent : List Char) : HwmonFanState :=
  let l := (enableContent.takeWhile (fun c => c != '\n')).take 62
  { path := path, watchdog := 0,
    initialState := String.mk (l ++ List.replicate (64 - l.length) nulChar) }

/-- HwmonFanDriver::init (drivers.cpp lines 184-193): write `1` to the
sibling `_enable` file; a failure is an IOerror. -/
def HwmonFanDriver.init (path : String) (w : WriteRes) : List Act × Option Err :=
  ([Act.put (path ++ "_enable") ("1")],
   match w with
   | .ok => none
   | .fail err => some (Err.IOerror (MSG_FAN_INIT path) err))

/-- HwmonFanDriver::set_speed (drivers.cpp lines 196-212): write the level's
numeric form; if that throws an IOerror with code EINVAL, re-initialize and
retry the write exactly once (a failure of the re-initialization itself, or
of the retried write, propagates); any other exception propagates at once.
`w1` is the first write's outcome, `wInit` the init write's, `w2` the
retried write's. -/
def HwmonFanDriver.set_speed (s : HwmonFanState) (lvl : Level)
    (w1 wInit w2 : WriteRes) : List Act × Option Err :=
  let p1 := FanDriver.set_speedT s.path (toString lvl.num) w1
  match p1.2 with
  | none => p1
  | some e =>
    match e with
    | .IOerror _ code =>
      if code = EINVAL then
        let pi := HwmonFanDriver.init s.path wInit
        match pi.2 with
        | some ei => (p1.1 ++ pi.1, some ei)
        | none =>
          let p2 := FanDriver.set_speedT s.path (toString lvl.num) w2
          (p1.1 ++ pi.1 ++ p2.1, p2.2)
      else (p1.1, some e)
    | _ => (p1.1, some e)

/-- State of a SensorDriver (drivers.cpp lines 219-246).  `skipBytes` is the
TpSensorDriver member skip_bytes_ (unused, 0, for hwmon sensors). -/
structure SensorState where
  path : String
  numTemps : Nat
  correction : List Int
  skipBytes : Nat
deriving DecidableEq, Repr

/-- SensorDriver::num_temps. -/
def SensorDriver.num_temps (s : SensorState) : Nat := s.numTemps

/-- SensorDriver::set_correction (drivers.cpp lines 232-239): a vector longer
than num_temps() throws a ConfigError before anything is assigned (the
returned state is the unchanged input); a shorter one logs a warning (the
returned Bool) and is stored as-is; an equal-length one is stored silently.
The temperature aggregate is not touched by this function at all. -/
def SensorDriver.set_correction (s : SensorState) (correction : List Int) :
    SensorState × Option Err × Bool :=
  if correction.length > SensorDriver.num_temps s then
    (s, some (Err.ConfigError
      (MSG_CONF_CORRECTION_LEN s.path correction.length s.numTemps)), false)
  else if correction.length < SensorDriver.num_temps s then
    ({ s with correction := correction }, none, true)
  else
    ({ s with correction := correction }, none, false)

/-- SensorDriver::set_num_temps (drivers.cpp lines 242-246): store the
channel count and resize the correction vector to it, zero-filling. -/
def SensorDriver.set_num_temps (s : SensorState) (n : Nat) : SensorState :=
  { s with numTemps := n,
           correction := s.correction.take n
             ++ List.replicate (n - s.correction.length) 0 }

/-- Whitespace as classified by the default C locale isspace, which the
stream extraction operator skips. -/
def isWs (c : Char) : Bool :=
  c == ' ' || c == '\t' || c == '\n' || c == '\x0b' || c == '\x0c' || c == '\r'

/-- Drops leading whitespace, as operator>> does before parsing a number. -/
def skipWs : List Char → List Char
  | [] => []
  | c :: cs => if isWs c then skipWs cs else c :: cs

/-- Consumes a maximal run of decimal digits, accumulating their value. -/
def grabDigits : List Char → Nat → Nat × List Char
  | [], acc => (acc, [])
  | c :: cs, acc =>
    if c.isDigit then grabDigits cs (acc * 10 + (c.toNat - ('0').toNat))
    else (acc, c :: cs)

/-- Largest value of the C int type; drivers.cpp reads temperatures into
int, which is 32 bits on the platforms thinkfan targets, and C++11 num_get
sets failbit on a value outside this range. -/
def INT_MAX : Int := 2147483647

/-- Smallest value of the C int type. -/
def INT_MIN : Int := -2147483648

/-- Outcome of one `f >> tmp` extraction into an int: success with the
value and the unconsumed input (failbit clear); a failure that stopped with
input still ahead (failbit set, eofbit clear, so a later `f.eof()` test
stays false); or a failure whose attempt exhausted the input (failbit and
eofbit both set). -/
inductive ExtractRes where
  | ok (v : Int) (rest : List Char)
  | failStop
  | failEof
deriving DecidableEq, Repr

/-- The C++11 num_get range check after a numeric field was consumed: a
value outside the int range sets failbit (the clamped value it stores is
never used, as the callers test the stream state first); since the digits
were consumed, eofbit is set exactly when they ran to the end of the
input. -/
def rangeChecked (v : Int) (r : List Char) : ExtractRes :=
  if INT_MIN ≤ v ∧ v ≤ INT_MAX then ExtractRes.ok v r
  else if r = [] then ExtractRes.failEof else ExtractRes.failStop

/-- One `f >> tmp` extraction of an int: skip whitespace, then an optional
sign followed by at least one digit, the value range-checked against the
int type; no digit after the optional sign, or a value out of range, sets
failbit, and eofbit is set when the attempt ran out of input. -/
def extractInt (cs : List Char) : ExtractRes :=
  match skipWs cs with
  | [] => ExtractRes.failEof
  | '-' :: rest =>
    match rest with
    | c :: _ =>
      if c.isDigit then
        match grabDigits rest 0 with
        | (n, r) => rangeChecked (-(n : Int)) r
      else ExtractRes.failStop
    | [] => ExtractRes.failEof
  | '+' :: rest =>
    match rest with
    | c :: _ =>
      if c.isDigit then
        match grabDigits rest 0 with
        | (n, r) => rangeChecked ((n : Int)) r
      else ExtractRes.failStop
    | [] => ExtractRes.failEof
  | c :: rest =>
    if c.isDigit then
      match grabDigits (c :: rest) 0 with
      | (n, r) => rangeChecked ((n : Int)) r
    else ExtractRes.failStop

/-- Fuelled repeated extraction: `.1` collects the values of the successful
extractions before the first failed one (where the constructor's counting
loop stops); `.2` tells whether that first failure exhausted the input
(eofbit set, so the read_temps loop, which tests eof, also terminates)
rather than stopping mid-stream (where that loop never terminates).  Every
successful extraction consumes at least one character, so fuel
`cs.length + 1` never runs out first. -/
def intTokensF : Nat → List Char → List Int × Bool
  | 0, _ => ([], false)
  | Nat.succ fuel, cs =>
    match extractInt cs with
    | ExtractRes.ok v rest =>
      let p := intTokensF fuel rest
      (v :: p.1, p.2)
    | ExtractRes.failEof => ([], true)
    | ExtractRes.failStop => ([], false)

/-- All ints extractable from the front of `cs`, with whether the
terminating failed extraction was an end-of-input one. -/
def intTokens (cs : List Char) : List Int × Bool :=
  intTokensF (cs.length + 1) cs

/-- Result of one read_temps() call: the values appended to the temperature
aggregate, or a thrown error, or undefined behavior (an out-of-bounds
correction_ index) / a loop that never terminates (an extraction that fails
before end-of-file leaves the failed flag set forever while the eof test
stays false). -/
inductive ReadRes where
  | ok (vals : List Int)
  | err (e : Err)
  | undef
deriving DecidableEq, Repr

/-- Adds correction_[i] to each reading, with indices counting up from `i`
as tidx does; an index at or past the end of the vector is an out-of-bounds
std::vector::operator[] access, i.e. undefined behavior, rendered `none`. -/
def corrApply (corr : List Int) : List Int → Nat → Option (List Int)
  | [], _ => some []
  | t :: ts, i =>
    match corr[i]? with
    | none => none
    | some c =>
      match corrApply corr ts (i + 1) with
      | none => none
      | some l => some ((t + c) :: l)

/-- The literal prefix `temperatures:` (TpSensorDriver::skip_prefix_,
drivers.cpp line 278). -/
def tempHeader : List Char := "temperatures:".data

/-- TpSensorDriver::TpSensorDriver (drivers.cpp lines 280-310), given the
file's content: getline the first 13 characters and compare them with
`temperatures:`; on mismatch throw a SystemError (unknown file format),
else remember tellg() = 13 as skip_bytes_, count the ints extractable from
the remainder (the count loop stops at the first failed extraction), and
set_num_temps to that count. -/
def TpSensorDriver.ctor (path : String) (content : List Char) :
    Except Err SensorState :=
  if content.take tempHeader.length = tempHeader then
    .ok (SensorDriver.set_num_temps
      { path := path, numTemps := 0, correction := [], skipBytes := tempHeader.length }
      (intTokens (content.drop tempHeader.length)).1.length)
  else
    .error (Err.SystemError (path ++ ": Unknown file format."))

/-- TpSensorDriver::read_temps (drivers.cpp lines 313-331): seek to
skip_bytes_, then repeatedly extract ints, appending tmp + correction_[tidx++]
for each success, until eof.  A failed extraction that exhausted the input
ends the loop normally (eofbit); one that fails mid-stream leaves failbit
set while the eof test stays false, so the loop never terminates
(ReadRes.undef); if tidx reaches the end of correction_ the index is out of
bounds (also ReadRes.undef). -/
def TpSensorDriver.read_temps (s : SensorState) (content : List Char) : ReadRes :=
  let p := intTokens (content.drop s.skipBytes)
  if p.2 then
    match corrApply s.correction p.1 0 with
    | some vals => ReadRes.ok vals
    | none => ReadRes.undef
  else ReadRes.undef

/-- HwmonSensorDriver::HwmonSensorDriver (drivers.cpp lines 254-256):
a single-channel sensor, set_num_temps(1). -/
def HwmonSensorDriver.ctor (path : String) : SensorState :=
  SensorDriver.set_num_temps
    { path := path, numTemps := 0, correction := [], skipBytes := 0 } 1

/-- HwmonSensorDriver::read_temps (drivers.cpp lines 259-270): extract one
int (a failed extraction — no parsable number or a value outside the int
range — sets failbit, which is in the exception mask here, so an IOerror is
thrown; errno is whatever it was, modelled 0), divide by 1000 with C
truncation, add correction_[0] (out of bounds if the correction vector is
empty), and append the result. -/
def HwmonSensorDriver.read_temps (s : SensorState) (content : List Char) : ReadRes :=
  match extractInt content with
  | ExtractRes.ok v _ =>
    match s.correction[0]? with
    | none => ReadRes.undef
    | some c => ReadRes.ok [Int.tdiv v 1000 + c]
  | _ => ReadRes.err (Err.IOerror (MSG_T_GET s.path) 0)

/-- A fan status line advertising direct level control. -/
def lineCommandsFull : List Char := "commands: level <level>".data

/- ------------------------------------------------------------------ -/
/- Theorems.                                                          -/
/- ------------------------------------------------------------------ -/

theorem leadsWith_refl (p : List Char) : leadsWith p p = true := by
  induction p with
  | nil => rfl
  | cons c cs ih => simp [leadsWith, ih]

theorem hasSub_of_leadsWith (p l : List Char) (h : leadsWith p l = true) :
    hasSub p l = true := by
  cases l with
  | nil => simpa [hasSub] using h
  | cons c cs => simp [hasSub, h]

theorem hasSub_cons (p l : List Char) (c : Char) (h : hasSub p l = true) :
    hasSub p (c :: l) = true := by
  simp [hasSub, h]

theorem hasSub_append_left (p a l : List Char) (h : hasSub p l = true) :
    hasSub p (a ++ l) = true := by
  induction a with
  | nil => simpa using h
  | cons x xs ih => simpa using hasSub_cons p (xs ++ l) x ih

theorem hasSub_self (p : List Char) : hasSub p p = true :=
  hasSub_of_leadsWith p p (leadsWith_refl p)

/-- C5: every call of the shared fan write primitive set_speed issues the
write; a failure with OS error EPERM (permission denied) is classified as a
SystemError whose message names the path, and a failure with any other OS
error is classified as an IOerror carrying the raw error code. -/
theorem fanDriver_set_speed_classification (path level : String) (err : Nat) :
    FanDriver.set_speed path level WriteRes.ok = Except.ok () ∧
    FanDriver.set_speed path level (WriteRes.fail err)
      = Except.error (if err = EPERM then Err.SystemError (MSG_FAN_EPERM path)
          else Err.IOerror (MSG_FAN_CTRL level path) err) ∧
    hasSubStr path (MSG_FAN_EPERM path) = true := by
  refine ⟨rfl, ?_, ?_⟩
  · by_cases h : err = EPERM <;> simp [FanDriver.set_speed, h]
  · simp only [hasSubStr, MSG_FAN_EPERM, String.data_append]
    exact hasSub_append_left path.data _ path.data (hasSub_self path.data)

/-- C4: destruction of the vendor-ACPI fan binding issues exactly one write,
of `level ` followed by the level string observed at construction, whatever
the write's outcome; a failing restoration write surfaces as an IOerror; and
a failed set_speed leaves the driver state (hence the remembered initial
state) unchanged, so the restoration is the same even after such a failure. -/
theorem tpFanDriver_dtor_restores (s : TpFanState) (lvl : Level) (now : Int)
    (err werr : Nat) :
    TpFanDriver.dtor s WriteRes.ok
      = ([Act.put s.path ("level " ++ s.initialState)], none) ∧
    TpFanDriver.dtor s (WriteRes.fail werr)
      = ([Act.put s.path ("level " ++ s.initialState)],
         some (Err.IOerror (MSG_FAN_RESET s.path) werr)) ∧
    (TpFanDriver.set_speed s lvl now (WriteRes.fail err)).1 = s ∧
    TpFanDriver.dtor (TpFanDriver.set_speed s lvl now (WriteRes.fail err)).1
        (WriteRes.fail werr)
      = ([Act.put s.path ("level " ++ s.initialState)],
         some (Err.IOerror (MSG_FAN_RESET s.path) werr)) := by
  have hs : (TpFanDriver.set_speed s lvl now (WriteRes.fail err)).1 = s := by
    by_cases h : err = EPERM <;> simp [TpFanDriver.set_speed, FanDriver.set_speed, h]
  exact ⟨rfl, rfl, hs, by rw [hs]; rfl⟩

/-- C3: ping_watchdog_and_depulse runs exactly one of two paths.  With a
positive depulse interval, it writes the literal `level disengaged` command,
blocks, then performs a normal set_speed write — independently of the last
successful write time, so the watchdog deadline is never evaluated.  With a
zero depulse interval, it re-issues the set_speed write if and only if the
last successful write plus the watchdog timeout plus one polling period has
not yet passed (it is still at or after now); otherwise nothing is written;
it never sleeps and never writes the disengaged command. -/
theorem tpFanDriver_ping_two_paths (s : TpFanState) (lvl : Level) (now : Int)
    (slp : Nat) (lp lp' : Int) :
    (0 < s.depulse →
      TpFanDriver.ping_watchdog_and_depulse s lvl now slp
        = ([Act.put s.path ("level disengaged"), Act.put s.path lvl.str], true) ∧
      TpFanDriver.ping_watchdog_and_depulse { s with lastPing := lp } lvl now slp
        = TpFanDriver.ping_watchdog_and_depulse { s with lastPing := lp' } lvl now slp) ∧
    (s.depulse = 0 →
      ((TpFanDriver.ping_watchdog_and_depulse s lvl now slp).1
          = [Act.put s.path lvl.str]
        ↔ now ≤ s.lastPing + s.watchdog + slp) ∧
      (¬ now ≤ s.lastPing + s.watchdog + slp →
        (TpFanDriver.ping_watchdog_and_depulse s lvl now slp).1 = []) ∧
      (TpFanDriver.ping_watchdog_and_depulse s lvl now slp).2 = false) := by
  constructor
  · intro h
    constructor
    · simp [TpFanDriver.ping_watchdog_and_depulse, h]
    · simp [TpFanDriver.ping_watchdog_and_depulse, h]
  · intro h
    have h0 : ¬ (0 : ℚ) < s.depulse := by rw [h]; exact lt_irrefl 0
    by_cases hc : now ≤ s.lastPing + s.watchdog + slp
    · simp [TpFanDriver.ping_watchdog_and_depulse, h0, ge_iff_le, hc]
    · simp [TpFanDriver.ping_watchdog_and_depulse, h0, ge_iff_le, hc]

/-- Witness for C3 at concrete inputs: depulse 1 second takes the depulse
path; depulse 0 with deadline 0 + 120 + 5 at or after now = 100 writes the
level. -/
theorem tpFanDriver_ping_two_paths_witness :
    (0 : ℚ) < 1 ∧
    TpFanDriver.ping_watchdog_and_depulse ⟨("fan"), 120, 1, 0, ("auto")⟩
        ⟨("level 7"), 7⟩ 100 5
      = ([Act.put ("fan") ("level disengaged"), Act.put ("fan") ("level 7")], true) ∧
    (100 : Int) ≤ 0 + 120 + 5 ∧
    (TpFanDriver.ping_watchdog_and_depulse ⟨("fan"), 120, 0, 0, ("auto")⟩
        ⟨("level 7"), 7⟩ 100 5).1
      = [Act.put ("fan") ("level 7")] :=
  ⟨by norm_num,
   ((tpFanDriver_ping_two_paths ⟨("fan"), 120, 1, 0, ("auto")⟩
      ⟨("level 7"), 7⟩ 100 5 0 0).1 (by norm_num)).1,
   by norm_num,
   ((tpFanDriver_ping_two_paths ⟨("fan"), 120, 0, 0, ("auto")⟩
      ⟨("level 7"), 7⟩ 100 5 0 0).2 rfl).1.mpr (by norm_num)⟩

/-- C2 (amended): for the sysfs-hwmon fan binding, a first write failing
with EINVAL triggers exactly one re-initialization; if the re-initialization
write succeeds, exactly one retried write of level.numeric follows and its
outcome (classified by the shared primitive) propagates with no further
retry; a failing re-initialization propagates its own IOerror with no
retried write; a first write failing with any other OS error propagates
with no retry — as an IOerror carrying the raw code, except permission
denied, which the shared primitive classifies as a SystemError. -/
theorem hwmonFanDriver_set_speed_retry (s : HwmonFanState) (lvl : Level)
    (wInit w2 : WriteRes) (e1 ei : Nat) :
    HwmonFanDriver.set_speed s lvl WriteRes.ok wInit w2
      = ([Act.put s.path (toString lvl.num)], none) ∧
    HwmonFanDriver.set_speed s lvl (WriteRes.fail EINVAL) WriteRes.ok w2
      = ([Act.put s.path (toString lvl.num), Act.put (s.path ++ "_enable") ("1"),
          Act.put s.path (toString lvl.num)],
         (FanDriver.set_speedT s.path (toString lvl.num) w2).2) ∧
    HwmonFanDriver.set_speed s lvl (WriteRes.fail EINVAL) (WriteRes.fail ei) w2
      = ([Act.put s.path (toString lvl.num), Act.put (s.path ++ "_enable") ("1")],
         some (Err.IOerror (MSG_FAN_INIT s.path) ei)) ∧
    (e1 ≠ EINVAL → e1 ≠ EPERM →
      HwmonFanDriver.set_speed s lvl (WriteRes.fail e1) wInit w2
        = ([Act.put s.path (toString lvl.num)],
           some (Err.IOerror (MSG_FAN_CTRL (toString lvl.num) s.path) e1))) ∧
    HwmonFanDriver.set_speed s lvl (WriteRes.fail EPERM) wInit w2
      = ([Act.put s.path (toString lvl.num)],
         some (Err.SystemError (MSG_FAN_EPERM s.path))) := by
  refine ⟨rfl, ?_, rfl, ?_, rfl⟩
  · cases w2 with
    | ok => rfl
    | fail e2 =>
      by_cases h2 : e2 = EPERM <;>
        simp [HwmonFanDriver.set_speed, HwmonFanDriver.init,
          FanDriver.set_speedT, FanDriver.set_speed, EINVAL, EPERM, h2]
  · intro h1 h1'
    simp [HwmonFanDriver.set_speed, FanDriver.set_speedT, FanDriver.set_speed, h1, h1']

/-- C2 counterexample: a first write failing with EPERM (an OS error other
than EINVAL) propagates as a SystemError, not as an IOerror as the claim
states; and when the re-initialization write fails after an EINVAL failure,
no retried write of level.numeric is issued at all. -/
theorem hwmonFanDriver_set_speed_eperm_not_ioerror :
    (HwmonFanDriver.set_speed ⟨("pwm1"), 0, ("2")⟩ ⟨("level 7"), 7⟩
        (WriteRes.fail EPERM) WriteRes.ok WriteRes.ok).2
      = some (Err.SystemError (MSG_FAN_EPERM ("pwm1"))) ∧
    Err.isIOerr (Err.SystemError (MSG_FAN_EPERM ("pwm1"))) = false ∧
    (HwmonFanDriver.set_speed ⟨("pwm1"), 0, ("2")⟩ ⟨("level 7"), 7⟩
        (WriteRes.fail EINVAL) (WriteRes.fail 5) WriteRes.ok).1
      = [Act.put ("pwm1") ("7"), Act.put ("pwm1_enable") ("1")] := by
  refine ⟨rfl, rfl, rfl⟩

/-- Witness for C2's amended theorem at concrete inputs: EINVAL is not
EPERM, and a first failure with EINVAL followed by a successful init and a
successful retry yields exactly the three write attempts and no error. -/
theorem hwmonFanDriver_set_speed_retry_witness :
    (5 : Nat) ≠ EINVAL ∧ (5 : Nat) ≠ EPERM ∧
    HwmonFanDriver.set_speed ⟨("pwm1"), 0, ("2")⟩ ⟨("level 7"), 7⟩
        (WriteRes.fail EINVAL) WriteRes.ok WriteRes.ok
      = ([Act.put ("pwm1") ("7"), Act.put ("pwm1_enable") ("1"),
          Act.put ("pwm1") ("7")], none) ∧
    HwmonFanDriver.set_speed ⟨("pwm1"), 0, ("2")⟩ ⟨("level 7"), 7⟩
        (WriteRes.fail 5) WriteRes.ok WriteRes.ok
      = ([Act.put ("pwm1") ("7")],
         some (Err.IOerror (MSG_FAN_CTRL ("7") ("pwm1")) 5)) :=
  ⟨by decide, by decide,
   by
    have h := (hwmonFanDriver_set_speed_retry ⟨("pwm1"), 0, ("2")⟩ ⟨("level 7"), 7⟩
      WriteRes.ok WriteRes.ok 5 0).2.1
    simpa [FanDriver.set_speedT, FanDriver.set_speed] using h,
   (hwmonFanDriver_set_speed_retry ⟨("pwm1"), 0, ("2")⟩ ⟨("level 7"), 7⟩
      WriteRes.ok WriteRes.ok 5 0).2.2.2.1 (by decide) (by decide)⟩

/-- C7: set_correction with a vector longer than num_temps() fails with a
ConfigError, leaving the driver state (in particular the stored correction
vector) unchanged and never touching the temperature aggregate (which
set_correction does not even receive); a shorter vector is accepted, its
only side effect beyond storing it being a logged warning. -/
theorem sensorDriver_set_correction_validates (s : SensorState) (corr : List Int) :
    (corr.length > SensorDriver.num_temps s →
      SensorDriver.set_correction s corr
        = (s, some (Err.ConfigError
            (MSG_CONF_CORRECTION_LEN s.path corr.length s.numTemps)), false)) ∧
    (corr.length < SensorDriver.num_temps s →
      SensorDriver.set_correction s corr
        = ({ s with correction := corr }, none, true)) := by
  constructor
  · intro h
    simp [SensorDriver.set_correction, h]
  · intro h
    have h1 : ¬ corr.length > SensorDriver.num_temps s := by omega
    simp [SensorDriver.set_correction, h, h1]

/-- Witness for C7 at a concrete two-channel sensor: a three-entry vector is
rejected with a ConfigError and no state change; a one-entry vector is
accepted with a warning. -/
theorem sensorDriver_set_correction_validates_witness :
    [1, 2, 3].length > SensorDriver.num_temps ⟨("temp1"), 2, [0, 0], 0⟩ ∧
    SensorDriver.set_correction ⟨("temp1"), 2, [0, 0], 0⟩ [1, 2, 3]
      = (⟨("temp1"), 2, [0, 0], 0⟩,
         some (Err.ConfigError (MSG_CONF_CORRECTION_LEN ("temp1") 3 2)), false) ∧
    [4].length < SensorDriver.num_temps ⟨("temp1"), 2, [0, 0], 0⟩ ∧
    SensorDriver.set_correction ⟨("temp1"), 2, [0, 0], 0⟩ [4]
      = (⟨("temp1"), 2, [4], 0⟩, none, true) :=
  ⟨by decide,
   (sensorDriver_set_correction_validates ⟨("temp1"), 2, [0, 0], 0⟩ [1, 2, 3]).1
     (by decide),
   by decide,
   (sensorDriver_set_correction_validates ⟨("temp1"), 2, [0, 0], 0⟩ [4]).2
     (by decide)⟩

/-- C9: on file content `temperatures: 45 50 0\n` the vendor-ACPI sensor
constructor finds 3 channels; set_correction [1, 0, -5] is accepted
silently; read_temps then appends exactly [46, 50, -5], in that order. -/
theorem tpSensorDriver_example_three_channels :
    TpSensorDriver.ctor ("/proc/acpi/ibm/thermal") ("temperatures: 45 50 0\n".data)
      = Except.ok ⟨("/proc/acpi/ibm/thermal"), 3, [0, 0, 0], 13⟩ ∧
    SensorDriver.num_temps ⟨("/proc/acpi/ibm/thermal"), 3, [0, 0, 0], 13⟩ = 3 ∧
    SensorDriver.set_correction ⟨("/proc/acpi/ibm/thermal"), 3, [0, 0, 0], 13⟩
        [1, 0, -5]
      = (⟨("/proc/acpi/ibm/thermal"), 3, [1, 0, -5], 13⟩, none, false) ∧
    TpSensorDriver.read_temps ⟨("/proc/acpi/ibm/thermal"), 3, [1, 0, -5], 13⟩
        ("temperatures: 45 50 0\n".data)
      = ReadRes.ok [46, 50, -5] := by
  refine ⟨rfl, rfl, by decide, by decide⟩

/-- C1: at the failing input, the code's behavior.  The constructor finds 3
channels; set_correction accepts the shorter vector [1] (length 1 ≤ 3) with
only a warning but stores it without re-padding; read_temps then indexes
correction_[1] past the end of the stored one-element vector — undefined
behavior — instead of producing [46, 50, 0] with the missing offsets
treated as zero. -/
theorem tpSensorDriver_short_correction_oob :
    TpSensorDriver.ctor ("/proc/acpi/ibm/thermal") ("temperatures: 45 50 0\n".data)
      = Except.ok ⟨("/proc/acpi/ibm/thermal"), 3, [0, 0, 0], 13⟩ ∧
    SensorDriver.set_correction ⟨("/proc/acpi/ibm/thermal"), 3, [0, 0, 0], 13⟩ [1]
      = (⟨("/proc/acpi/ibm/thermal"), 3, [1], 13⟩, none, true) ∧
    TpSensorDriver.read_temps ⟨("/proc/acpi/ibm/thermal"), 3, [1], 13⟩
        ("temperatures: 45 50 0\n".data)
      = ReadRes.undef ∧
    ReadRes.undef ≠ ReadRes.ok [46, 50, 0] := by
  refine ⟨rfl, by decide, by decide, by decide⟩

/-- C10: a vendor-ACPI fan binding as constructed (before any set_watchdog)
has watchdog timeout 120 seconds; init() writes `watchdog 120` to the
control path; the same 120 enters the watchdog-ping deadline; and a
sysfs-hwmon fan binding is constructed with watchdog timeout 0. -/
theorem tpFanDriver_default_watchdog (path epath : String)
    (lines : List (List Char)) (econtent : List Char) (s : TpFanState)
    (lvl : Level) (now : Int) (slp : Nat) (w : WriteRes)
    (h : TpFanDriver.ctor path lines = Except.ok s) :
    s.watchdog = 120 ∧
    (TpFanDriver.init s w).1 = [Act.put s.path ("watchdog 120")] ∧
    TpFanDriver.ping_watchdog_and_depulse s lvl now slp
      = (if s.lastPing + 120 + (slp : Int) ≥ now
         then [Act.put s.path lvl.str] else [], false) ∧
    (HwmonFanDriver.ctor epath econtent).watchdog = 0 := by
  unfold TpFanDriver.ctor at h
  rcases htp : tpScan lines bufInit [] false with ⟨st, ctrl⟩
  rw [htp] at h
  cases ctrl
  · exact absurd h (by simp)
  · simp only [Except.ok.injEq] at h
    subst h
    have hw : ("watchdog " ++ toString (120 : Nat)) = "watchdog 120" := by rfl
    refine ⟨rfl, ?_, ?_, rfl⟩
    · cases w <;> simp [TpFanDriver.init, hw]
    · simp only [TpFanDriver.ping_watchdog_and_depulse]
      norm_num
      split <;> rfl

set_option maxRecDepth 8192 in
/-- Witness for C10: a status file whose single line is
`commands: level <level>` constructs successfully with watchdog 120, and
init writes `watchdog 120`; a hwmon fan binding over an `_enable` file
reading `1` has watchdog 0. -/
theorem tpFanDriver_default_watchdog_witness :
    TpFanDriver.ctor ("f") [lineCommandsFull]
      = Except.ok ⟨("f"), 120, 0, 0, ("")⟩ ∧
    (⟨("f"), 120, 0, 0, ("")⟩ : TpFanState).watchdog = 120 ∧
    (TpFanDriver.init ⟨("f"), 120, 0, 0, ("")⟩ WriteRes.ok).1
      = [Act.put ("f") ("watchdog 120")] ∧
    (HwmonFanDriver.ctor ("pwm1") ("1\n".data)).watchdog = 0 := by
  have hctor : TpFanDriver.ctor ("f") [lineCommandsFull]
      = Except.ok ⟨("f"), 120, 0, 0, ("")⟩ := by rfl
  have h := tpFanDriver_default_watchdog ("f") ("pwm1") [lineCommandsFull]
    ("1\n".data) ⟨("f"), 120, 0, 0, ("")⟩ ⟨("level 7"), 7⟩ 0 5 WriteRes.ok hctor
  exact ⟨hctor, h.1, h.2.1, h.2.2.2⟩

theorem corrApply_of_length_le (corr : List Int) :
    ∀ (ts : List Int) (i : Nat), i + ts.length ≤ corr.length →
      ∃ l, corrApply corr ts i = some l ∧ l.length = ts.length := by
  intro ts
  induction ts with
  | nil => exact fun i _ => ⟨[], rfl, rfl⟩
  | cons t ts ih =>
    intro i h
    have hi : i < corr.length := by simp only [List.length_cons] at h; omega
    have hget : corr[i]? = some corr[i] := List.getElem?_eq_getElem hi
    obtain ⟨l, hl, hlen⟩ := ih (i + 1) (by simp only [List.length_cons] at h; omega)
    exact ⟨(t + corr[i]) :: l, by simp [corrApply, hget, hl], by simp [hlen]⟩

/-- C8: one error-free read_temps() appends exactly num_temps() values: the
sysfs-hwmon sensor (one channel) appends exactly one value whenever its
file yields a successful extraction (a number within the int range), and
the vendor-ACPI sensor, read on content with the same channel layout the
constructor counted whose terminating extraction failure is an end-of-input
one (so the loop exits instead of hanging), with a correction vector sized
to the channel count (the invariant set_num_temps establishes), appends
exactly num_temps() values.  Hence an error-free cycle grows the aggregate
by the sum of num_temps() over the bindings, in registration order. -/
theorem read_temps_appends_num_temps
    (p1 : String) (c1 : List Char) (v : Int) (r : List Char) (corr1 : List Int)
    (p2 : String) (c2 : List Char) (s2 : SensorState) (corr2 : List Int)
    (h1 : extractInt c1 = ExtractRes.ok v r)
    (h2 : corr1.length = SensorDriver.num_temps (HwmonSensorDriver.ctor p1))
    (h3 : TpSensorDriver.ctor p2 c2 = Except.ok s2)
    (h4 : (intTokens (c2.drop s2.skipBytes)).2 = true)
    (h5 : corr2.length = SensorDriver.num_temps s2) :
    (∃ l, HwmonSensorDriver.read_temps
          { HwmonSensorDriver.ctor p1 with correction := corr1 } c1
        = ReadRes.ok l ∧ l.length = SensorDriver.num_temps (HwmonSensorDriver.ctor p1)) ∧
    (∃ l, TpSensorDriver.read_temps { s2 with correction := corr2 } c2
        = ReadRes.ok l ∧ l.length = SensorDriver.num_temps s2) := by
  constructor
  · have h2' : corr1.length = 1 := h2
    rcases corr1 with _ | ⟨c, rest⟩
    · exact absurd h2' (by simp)
    · have hr : rest = [] := by simpa using h2'
      subst hr
      exact ⟨[Int.tdiv v 1000 + c], by simp [HwmonSensorDriver.read_temps, h1], rfl⟩
  · unfold TpSensorDriver.ctor at h3
    split at h3
    · simp only [Except.ok.injEq] at h3
      subst h3
      simp only [SensorDriver.set_num_temps, SensorDriver.num_temps] at h4 h5 ⊢
      obtain ⟨l, hl, hlen⟩ := corrApply_of_length_le corr2
        (intTokens (c2.drop tempHeader.length)).1 0 (by simpa using h5.ge)
      refine ⟨l, ?_, by simpa using hlen⟩
      simp only [TpSensorDriver.read_temps]
      rw [if_pos (by simpa using h4), hl]
    · exact absurd h3 (by simp)

/-- Witness for C8 at concrete inputs: hwmon content `43000\n` with
correction [2] appends one value; vendor-ACPI content
`temperatures: 45 50 0\n` with correction [1, 0, -5] appends three. -/
theorem read_temps_appends_num_temps_witness :
    extractInt ("43000\n".data) = ExtractRes.ok 43000 ("\n".data) ∧
    TpSensorDriver.ctor ("thermal") ("temperatures: 45 50 0\n".data)
      = Except.ok ⟨("thermal"), 3, [0, 0, 0], 13⟩ ∧
    (∃ l, HwmonSensorDriver.read_temps
          { HwmonSensorDriver.ctor ("temp1") with correction := [2] } ("43000\n".data)
        = ReadRes.ok l ∧
        l.length = SensorDriver.num_temps (HwmonSensorDriver.ctor ("temp1"))) ∧
    (∃ l, TpSensorDriver.read_temps
          { (⟨("thermal"), 3, [0, 0, 0], 13⟩ : SensorState) with correction := [1, 0, -5] }
          ("temperatures: 45 50 0\n".data)
        = ReadRes.ok l ∧
        l.length = SensorDriver.num_temps ⟨("thermal"), 3, [0, 0, 0], 13⟩) := by
  have h := read_temps_appends_num_temps ("temp1") ("43000\n".data) 43000 ("\n".data)
    [2] ("thermal") ("temperatures: 45 50 0\n".data) ⟨("thermal"), 3, [0, 0, 0], 13⟩
    [1, 0, -5] (by decide) (by decide) (by rfl) (by decide) (by decide)
  exact ⟨by decide, by rfl, h.1, h.2⟩

end Thinkfan
